import Mathlib

/-
Verification of the rating and projection engine (src/elo.py, src/projection.py).

Modelling conventions of the shallow embedding:
  * Python floats are modelled as real numbers (`ℝ`); a numeric cell that may be
    NaN is modelled as `Option ℝ` with `none` playing the role of NaN
    (`pd.isna x` becomes `x = none`).
  * A pandas DataFrame of match rows is a `Table`: its list of rows plus the
    list `cols` of numeric stat columns present in the frame (Python's
    `col in frame` / `Series.get(col, default)` consult the frame's columns).
  * A Python dict is an association list in insertion order: lookup is `getA`,
    `d[k] = v` is `updA` (replace in place or append).
  * `DataFrame.sort_values` is modelled as a stable sort (`List.insertionSort`);
    `groupby(key)` iterates groups in ascending key order (pandas default
    `sort=True`), with rows inside a group keeping the frame's current order.
  * Python `round(x, n)` rounds half to even; `roundHalfEven` below does the
    same on `ℝ`, and `pyRound1`/`pyRound3` are `round(x, 1)`/`round(x, 3)`.
-/

namespace LolProj

/-- Python dict lookup (`d.get(k)` / `k in d`): first binding of a key in an
association list. -/
def getA {α : Type} : List (String × α) → String → Option α
  | [], _ => none
  | (k, v) :: rest, key => if k = key then some v else getA rest key

/-- Python dict assignment `d[k] = v`: replace the existing binding in place,
otherwise append a new binding at the end (dicts keep insertion order). -/
def updA : List (String × ℝ) → String → ℝ → List (String × ℝ)
  | [], k, v => [(k, v)]
  | (k', v') :: rest, k, v =>
      if k' = k then (k, v) :: rest else (k', v') :: updA rest k v

/-- Helper for `uniqueFirst`: keep each string the first time it is seen. -/
def uniqueAux (seen : List String) : List String → List String
  | [] => []
  | x :: xs => if x ∈ seen then uniqueAux seen xs else x :: uniqueAux (x :: seen) xs

/-- pandas `Series.unique()`: the distinct values in order of first occurrence. -/
def uniqueFirst (l : List String) : List String := uniqueAux [] l

/-- Python `round(x)` on a real: round half to even (banker's rounding). -/
noncomputable def roundHalfEven (x : ℝ) : ℤ :=
  if Int.fract x = 1/2 then (if 2 ∣ ⌊x⌋ then ⌊x⌋ else ⌊x⌋ + 1) else round x

/-- Python `round(x, 1)`. -/
noncomputable def pyRound1 (x : ℝ) : ℝ := (roundHalfEven (x * 10) : ℝ) / 10

/-- Python `round(x, 3)`. -/
noncomputable def pyRound3 (x : ℝ) : ℝ := (roundHalfEven (x * 1000) : ℝ) / 1000

/-! ### Data model

One team-level match row (`position == 'team'`) with the columns consumed by
`elo.py` and `projection.py`.  The factor stat columns (golddiffat10, kills,
vspm, ...) are accessed by name through the `stats` map; `stats c = none`
models a NaN cell (or a column the row does not carry). -/

structure Row where
  gameid : String
  date : ℤ
  league : String
  teamname : String
  side : String
  result : ℤ
  totalgold : Option ℝ
  gamelength : Option ℝ
  stats : String → Option ℝ

/-- A match DataFrame: the numeric stat columns present in the frame, and the
rows. -/
structure Table where
  cols : List String
  rows : List Row

/-- One ELO history record appended by `compute_elo`. -/
structure HistEntry where
  team : String
  elo : ℝ
  date : ℤ
  gameid : String

/-! ### src/elo.py -/

def STARTING_ELO : ℝ := 1500

def BASE_K : ℝ := 32

/-- `expected_win_prob` (elo.py line 26): standard logistic expected-score
formula `1.0 / (1.0 + 10 ** ((elo_b - elo_a) / 400))`. -/
noncomputable def expected_win_prob (elo_a elo_b : ℝ) : ℝ :=
  1.0 / (1.0 + (10 : ℝ) ^ ((elo_b - elo_a) / 400))

/-- `_margin_multiplier` (elo.py line 31).  `pd.isna` on a gold or length
argument is the `none` case. -/
noncomputable def _margin_multiplier (winner_gold loser_gold : Option ℝ)
    (game_length : Option ℝ) : ℝ :=
  match winner_gold, loser_gold with
  | some w, some l =>
    if w + l = 0 then 1.0
    else
      let gold_diff_pct := |w - l| / ((w + l) / 2)
      let length_factor : ℝ :=
        match game_length with
        | some gl => if gl > 0 then max 0.8 (min 1.3 (1800 / max gl 600)) else 1.0
        | none => 1.0
      max 1.0 (min 2.5 ((1 + Real.log (1 + gold_diff_pct * 3)) * length_factor))
  | _, _ => 1.0

/-- `row.get("totalgold", 0)` (elo.py lines 104-110): the cell (possibly NaN)
when the frame has a `totalgold` column, otherwise the default `0`. -/
def tgold (t : Table) (r : Row) : Option ℝ :=
  if "totalgold" ∈ t.cols then r.totalgold else some 0

/-- `row.get("gamelength", 1800)` (elo.py lines 106, 110). -/
def glen (t : Table) (r : Row) : Option ℝ :=
  if "gamelength" ∈ t.cols then r.gamelength else some 1800

/-- `games_df.sort_values("date")` (elo.py line 71), modelled as a stable
sort on the date column. -/
def sortByDate (rows : List Row) : List Row :=
  List.insertionSort (fun r s => r.date ≤ s.date) rows

/-- The group keys of `.groupby("gameid")` (elo.py line 71) in iteration
order: pandas iterates groups in ascending key order (`sort=True` default),
NOT in the row order of the (date-sorted) frame. -/
def sortedGameIds (rows : List Row) : List String :=
  List.insertionSort (fun a b => a ≤ b) (uniqueFirst (rows.map (fun r => r.gameid)))

/-- The body of the `for gameid, group in grouped` loop of `compute_elo`
(elo.py lines 73-123), acting on the state `(elos, history)`.

A group of size ≠ 2 is skipped.  For a 2-row group, `group.sort_values("side")`
puts the row with the smaller `side` string first ("Blue" before "Red"); on a
2-element list the stable sort is the conditional swap written here. -/
noncomputable def step (t : Table) (st : List (String × ℝ) × List HistEntry)
    (g : String × List Row) : List (String × ℝ) × List HistEntry :=
  if g.2.length = 2 then
    match g.2 with
    | [ra, rb] =>
      let (brow, rrow) := if ra.side ≤ rb.side then (ra, rb) else (rb, ra)
      let blue_team := brow.teamname
      let red_team := rrow.teamname
      let elos1 := if (getA st.1 blue_team).isSome then st.1
                   else st.1 ++ [(blue_team, STARTING_ELO)]
      let elos2 := if (getA elos1 red_team).isSome then elos1
                   else elos1 ++ [(red_team, STARTING_ELO)]
      let elo_blue := (getA elos2 blue_team).getD STARTING_ELO
      let elo_red := (getA elos2 red_team).getD STARTING_ELO
      let exp_blue := expected_win_prob elo_blue elo_red
      let exp_red := 1 - exp_blue
      let actual_blue : ℝ := if brow.result = 1 then 1.0 else 0.0
      let actual_red := 1.0 - actual_blue
      let mov := if brow.result = 1 then
                   _margin_multiplier (tgold t brow) (tgold t rrow) (glen t brow)
                 else
                   _margin_multiplier (tgold t rrow) (tgold t brow) (glen t rrow)
      let k := BASE_K * mov
      let elos3 := updA elos2 blue_team (elo_blue + k * (actual_blue - exp_blue))
      let elos4 := updA elos3 red_team (elo_red + k * (actual_red - exp_red))
      let date := brow.date
      (elos4,
       st.2 ++ [{ team := blue_team, elo := pyRound1 ((getA elos4 blue_team).getD STARTING_ELO),
                  date := date, gameid := g.1 },
                { team := red_team, elo := pyRound1 ((getA elos4 red_team).getD STARTING_ELO),
                  date := date, gameid := g.1 }])
    | _ => st
  else st

/-- `compute_elo` (elo.py line 51): sort the rows by date, group them by
gameid (groups iterated in ascending gameid order, rows inside a group in
date order), and fold the per-game update over the groups. -/
noncomputable def compute_elo (t : Table) : List (String × ℝ) × List HistEntry :=
  let sorted := sortByDate t.rows
  ((sortedGameIds sorted).map
      (fun gid => (gid, sorted.filter (fun r => r.gameid = gid)))).foldl
    (step t) ([], [])

/-! ### Association-list lemmas -/

theorem getA_updA_self (l : List (String × ℝ)) (k : String) (v : ℝ) :
    getA (updA l k v) k = some v := by
  induction l with
  | nil => simp [updA, getA]
  | cons p rest ih =>
    by_cases h : p.1 = k
    · simp [updA, getA, h]
    · simp [updA, getA, h, ih]

theorem getA_updA_ne (l : List (String × ℝ)) (k k' : String) (v : ℝ)
    (h : k' ≠ k) : getA (updA l k v) k' = getA l k' := by
  induction l with
  | nil => simp [updA, getA, Ne.symm h]
  | cons p rest ih =>
    by_cases hp : p.1 = k
    · subst hp
      simp [updA, getA, h, Ne.symm h]
    · simp only [updA, if_neg hp]
      by_cases hp' : p.1 = k'
      · simp [getA, hp']
      · simp [getA, hp', ih]

theorem getA_append_single (l : List (String × ℝ)) (k k' : String) (v : ℝ) :
    getA (l ++ [(k, v)]) k' = if (getA l k').isSome then getA l k'
                              else if k = k' then some v else none := by
  induction l with
  | nil => simp [getA]
  | cons p rest ih =>
    by_cases hp : p.1 = k'
    · simp [getA, hp]
    · simp [getA, hp, ih]

/-- Reading a team that `init` just (possibly) inserted at the baseline gives
the same defaulted rating as reading the original dict. -/
theorem getA_init_getD (l : List (String × ℝ)) (tm : String) :
    (getA (if (getA l tm).isSome then l else l ++ [(tm, STARTING_ELO)]) tm).getD STARTING_ELO
      = (getA l tm).getD STARTING_ELO := by
  by_cases h : (getA l tm).isSome
  · simp [h]
  · rw [if_neg h, getA_append_single, if_neg h, if_pos rfl]
    cases hg : getA l tm with
    | none => simp
    | some v => rw [hg] at h; simp at h

/-- Initialising some other team leaves a key's binding unchanged. -/
theorem getA_init_ne (l : List (String × ℝ)) (tm k : String) (h : k ≠ tm) :
    getA (if (getA l tm).isSome then l else l ++ [(tm, STARTING_ELO)]) k = getA l k := by
  by_cases hs : (getA l tm).isSome
  · rw [if_pos hs]
  · rw [if_neg hs, getA_append_single, if_neg (Ne.symm h)]
    cases hg : getA l k with
    | none => simp
    | some v => simp

/-- After the two rating writes of one game the change of the two (distinct)
teams' defaulted ratings sums to the two written update terms. -/
theorem delta_sum (elos elos2 : List (String × ℝ)) (bt rt : String)
    (hne : bt ≠ rt) (k eB aB vB vR : ℝ)
    (h2b : (getA elos2 bt).getD STARTING_ELO = (getA elos bt).getD STARTING_ELO)
    (h2r : (getA elos2 rt).getD STARTING_ELO = (getA elos rt).getD STARTING_ELO)
    (hvB : vB = (getA elos2 bt).getD STARTING_ELO + k * (aB - eB))
    (hvR : vR = (getA elos2 rt).getD STARTING_ELO + k * ((1.0 - aB) - (1 - eB))) :
    ((getA (updA (updA elos2 bt vB) rt vR) bt).getD STARTING_ELO
        - (getA elos bt).getD STARTING_ELO)
      + ((getA (updA (updA elos2 bt vB) rt vR) rt).getD STARTING_ELO
        - (getA elos rt).getD STARTING_ELO) = 0 := by
  rw [getA_updA_ne _ _ _ _ hne, getA_updA_self, getA_updA_self, ← h2b, ← h2r,
    Option.getD_some, Option.getD_some, hvB, hvR]
  ring

/-! ### Concrete inputs used by witnesses and counterexamples -/

/-- An empty match frame. -/
def tEmpty : Table := { cols := [], rows := [] }

/-- Blue-side winning row of a single game. -/
def rowWA : Row :=
  { gameid := "g", date := 1, league := "L", teamname := "A", side := "Blue",
    result := 1, totalgold := some 5000, gamelength := some 1700,
    stats := fun _ => none }

/-- Red-side losing row of the same game. -/
def rowWB : Row :=
  { gameid := "g", date := 1, league := "L", teamname := "B", side := "Red",
    result := 0, totalgold := some 5000, gamelength := some 1700,
    stats := fun _ => none }

/-! ### C7 — expected scores are complementary -/

/-- C7: for all ratings `a` and `b`,
`expected_win_prob a b + expected_win_prob b a = 1` (exactly, in the real
model of float arithmetic). -/
theorem expected_win_prob_complement (a b : ℝ) :
    expected_win_prob a b + expected_win_prob b a = 1 := by
  unfold expected_win_prob
  have h10 : (0:ℝ) < 10 := by norm_num
  have hx : (0:ℝ) < (10 : ℝ) ^ ((b - a) / 400) := Real.rpow_pos_of_pos h10 _
  have hinv : (10 : ℝ) ^ ((a - b) / 400) = ((10 : ℝ) ^ ((b - a) / 400))⁻¹ := by
    rw [← Real.rpow_neg (le_of_lt h10)]
    ring_nf
  rw [hinv]
  have h1 : (1:ℝ) + (10 : ℝ) ^ ((b - a) / 400) ≠ 0 := by positivity
  have h2 : (1:ℝ) + ((10 : ℝ) ^ ((b - a) / 400))⁻¹ ≠ 0 := by positivity
  field_simp
  ring

/-! ### C6 — margin multiplier range and degenerate cases -/

/-- C6: the margin multiplier lies in `[1, 2.5]` for finite non-negative
gold and length inputs, and degenerate inputs (a NaN gold value, or combined
gold equal to zero) give exactly `1.0`. -/
theorem margin_multiplier_range (wg lg gl : ℝ)
    (hw : 0 ≤ wg) (hl : 0 ≤ lg) (hg : 0 ≤ gl) :
    (1 ≤ _margin_multiplier (some wg) (some lg) (some gl)
      ∧ _margin_multiplier (some wg) (some lg) (some gl) ≤ 5/2)
    ∧ (∀ go glo, _margin_multiplier none go glo = 1)
    ∧ (∀ wo glo, _margin_multiplier wo none glo = 1)
    ∧ (wg + lg = 0 → ∀ glo, _margin_multiplier (some wg) (some lg) glo = 1) := by
  refine ⟨?_, ?_, ?_, ?_⟩
  · unfold _margin_multiplier
    dsimp only
    by_cases h0 : wg + lg = 0
    · rw [if_pos h0]
      norm_num
    · rw [if_neg h0]
      constructor
      · exact le_trans (by norm_num : (1:ℝ) ≤ 1.0) (le_max_left _ _)
      · rw [max_le_iff, min_le_iff]
        exact ⟨by norm_num, Or.inl (by norm_num)⟩
  · intro go glo
    cases go <;> (unfold _margin_multiplier; norm_num)
  · intro wo glo
    cases wo <;> (unfold _margin_multiplier; norm_num)
  · intro h0 glo
    unfold _margin_multiplier
    dsimp only
    rw [if_pos h0]
    norm_num

/-- Witness for C6 at winner gold 5000, loser gold 3000, length 1200. -/
theorem margin_multiplier_range_witness :
    ((0:ℝ) ≤ 5000 ∧ (0:ℝ) ≤ 3000 ∧ (0:ℝ) ≤ 1200)
    ∧ ((1 ≤ _margin_multiplier (some 5000) (some 3000) (some 1200)
        ∧ _margin_multiplier (some 5000) (some 3000) (some 1200) ≤ 5/2)
      ∧ (∀ go glo, _margin_multiplier none go glo = 1)
      ∧ (∀ wo glo, _margin_multiplier wo none glo = 1)
      ∧ ((5000:ℝ) + 3000 = 0 → ∀ glo, _margin_multiplier (some 5000) (some 3000) glo = 1)) :=
  ⟨⟨by norm_num, by norm_num, by norm_num⟩,
    margin_multiplier_range 5000 3000 1200 (by norm_num) (by norm_num) (by norm_num)⟩

/-! ### C4 — malformed game groups are skipped -/

/-- C4: a game-id group whose size is not 2 leaves the rating state and the
history exactly unchanged (the loop body `continue`s; nothing is raised —
`step` is a total function). -/
theorem step_skips_malformed (t : Table) (st : List (String × ℝ) × List HistEntry)
    (gid : String) (g : List Row) (h : g.length ≠ 2) :
    step t st (gid, g) = st := by
  unfold step
  exact if_neg h

/-- Witness for C4 on a concrete 3-row group. -/
theorem step_skips_malformed_witness :
    ([rowWA, rowWB, rowWA].length ≠ 2)
    ∧ step tEmpty ([("A", 1480)], []) ("g", [rowWA, rowWB, rowWA]) = ([("A", 1480)], []) :=
  ⟨by decide, step_skips_malformed tEmpty ([("A", 1480)], []) "g" [rowWA, rowWB, rowWA] (by decide)⟩

/-! ### C1 — a game conserves the total rating of its two participants -/

/-- C1: processing one well-formed game (a 2-row group) changes the two
participating teams' (defaulted) ratings by amounts that sum to exactly
zero. -/
theorem elo_game_conservation (t : Table) (elos : List (String × ℝ))
    (hist : List HistEntry) (gid : String) (ra rb : Row)
    (hne : ra.teamname ≠ rb.teamname) :
    ((getA (step t (elos, hist) (gid, [ra, rb])).1 ra.teamname).getD STARTING_ELO
        - (getA elos ra.teamname).getD STARTING_ELO)
      + ((getA (step t (elos, hist) (gid, [ra, rb])).1 rb.teamname).getD STARTING_ELO
        - (getA elos rb.teamname).getD STARTING_ELO) = 0 := by
  unfold step
  rw [if_pos (by simp)]
  by_cases hside : ra.side ≤ rb.side
  · simp only [hside, if_true, if_pos hside]
    exact delta_sum elos _ ra.teamname rb.teamname hne _ _ _ _ _
      (by rw [getA_init_ne _ _ _ hne, getA_init_getD])
      (by rw [getA_init_getD, getA_init_ne _ _ _ (Ne.symm hne)])
      rfl rfl
  · simp only [hside, if_false, if_neg hside]
    rw [add_comm]
    exact delta_sum elos _ rb.teamname ra.teamname (Ne.symm hne) _ _ _ _ _
      (by rw [getA_init_ne _ _ _ (Ne.symm hne), getA_init_getD])
      (by rw [getA_init_getD, getA_init_ne _ _ _ hne])
      rfl rfl

/-- Witness for C1: a concrete game between teams "A" and "B" from the
empty initial state. -/
theorem elo_game_conservation_witness :
    (("A" : String) ≠ "B")
    ∧ ((getA (step tEmpty ([], []) ("g", [rowWA, rowWB])).1 rowWA.teamname).getD STARTING_ELO
        - (getA [] rowWA.teamname).getD STARTING_ELO)
      + ((getA (step tEmpty ([], []) ("g", [rowWA, rowWB])).1 rowWB.teamname).getD STARTING_ELO
        - (getA [] rowWB.teamname).getD STARTING_ELO) = 0 :=
  ⟨by decide, elo_game_conservation tEmpty [] [] "g" rowWA rowWB (by decide)⟩

/-! ### C5 — history entries carry the post-update rating, rounded -/

/-- C5 (amended): one well-formed game appends exactly two history entries,
one per side (the two rows' teams), and each appended entry records
`round(elos[team], 1)` — the team's post-update rating rounded half-to-even
to one decimal — not the exact post-update rating. -/
theorem step_appends_rounded_history (t : Table) (elos : List (String × ℝ))
    (hist : List HistEntry) (gid : String) (ra rb : Row) :
    (step t (elos, hist) (gid, [ra, rb])).2.length = hist.length + 2
    ∧ (step t (elos, hist) (gid, [ra, rb])).2.take hist.length = hist
    ∧ List.Perm (((step t (elos, hist) (gid, [ra, rb])).2.drop hist.length).map
        (fun e => e.team)) [ra.teamname, rb.teamname]
    ∧ ∀ e ∈ (step t (elos, hist) (gid, [ra, rb])).2.drop hist.length,
        e.elo = pyRound1 ((getA (step t (elos, hist) (gid, [ra, rb])).1 e.team).getD
          STARTING_ELO) := by
  unfold step
  rw [if_pos (by simp)]
  by_cases hside : ra.side ≤ rb.side
  · simp only [hside, if_true, if_pos hside]
    refine ⟨by simp, by simp [List.take_left], by simp, ?_⟩
    intro e he
    simp only [List.drop_left, List.mem_cons, List.not_mem_nil, or_false] at he
    rcases he with he | he
    · subst he; rfl
    · subst he; rfl
  · simp only [hside, if_false, if_neg hside]
    refine ⟨by simp, by simp [List.take_left], ?_, ?_⟩
    · simpa using List.Perm.swap ra.teamname rb.teamname []
    · intro e he
      simp only [List.drop_left, List.mem_cons, List.not_mem_nil, or_false] at he
      rcases he with he | he
      · subst he; rfl
      · subst he; rfl

/-! ### Evaluation helpers for the concrete runs of compute_elo -/

theorem ewp_1500 : expected_win_prob 1500 1500 = 1/2 := by
  unfold expected_win_prob
  rw [show ((1500:ℝ) - 1500) / 400 = 0 by norm_num, Real.rpow_zero]
  norm_num

theorem margin_5000_5000_1700 :
    _margin_multiplier (some 5000) (some 5000) (some 1700) = 18/17 := by
  unfold _margin_multiplier
  dsimp only
  rw [if_neg (by norm_num)]
  rw [show |(5000:ℝ) - 5000| / ((5000 + 5000) / 2) = 0 by simp]
  rw [if_pos (by norm_num : (1700:ℝ) > 0)]
  rw [show max (1700:ℝ) 600 = 1700 from max_eq_left (by norm_num)]
  rw [show (0:ℝ) * 3 = 0 by norm_num, show (1:ℝ) + 0 = 1 by norm_num, Real.log_one]
  rw [show min (1.3:ℝ) (1800 / 1700) = 1800/1700 from min_eq_right (by norm_num)]
  rw [show max (0.8:ℝ) (1800/1700) = 1800/1700 from max_eq_right (by norm_num)]
  rw [show ((1:ℝ) + 0) * (1800/1700) = 18/17 by norm_num]
  rw [show min (2.5:ℝ) (18/17) = 18/17 from min_eq_right (by norm_num)]
  exact max_eq_right (by norm_num)

theorem floor_257880_17 : ⌊(257880:ℝ)/17⌋ = 15169 := by
  rw [Int.floor_eq_iff]
  constructor <;> norm_num

theorem pyRound1_A : pyRound1 ((25788:ℝ)/17) = 15169/10 := by
  unfold pyRound1 roundHalfEven
  rw [show ((25788:ℝ)/17) * 10 = 257880/17 by ring]
  rw [if_neg (by rw [Int.fract, floor_257880_17]; norm_num)]
  rw [round_eq, show (257880:ℝ)/17 + 1/2 = 515777/34 by ring]
  rw [show ⌊(515777:ℝ)/34⌋ = 15169 from by rw [Int.floor_eq_iff]; constructor <;> norm_num]
  norm_num

theorem pyRound1_B : pyRound1 ((25212:ℝ)/17) = 14831/10 := by
  unfold pyRound1 roundHalfEven
  rw [show ((25212:ℝ)/17) * 10 = 252120/17 by ring]
  rw [if_neg (by
    rw [Int.fract, show ⌊(252120:ℝ)/17⌋ = 14830 from by
      rw [Int.floor_eq_iff]; constructor <;> norm_num]
    norm_num)]
  rw [round_eq, show (252120:ℝ)/17 + 1/2 = 504257/34 by ring]
  rw [show ⌊(504257:ℝ)/34⌋ = 14831 from by rw [Int.floor_eq_iff]; constructor <;> norm_num]
  norm_num

/-- The concrete table of C5's counterexample: one game, equal total gold
(5000 each), length 1700s, Blue side "A" wins over "B". -/
def tC5 : Table := { cols := ["totalgold", "gamelength"], rows := [rowWA, rowWB] }

theorem sblue_red : ("Blue" : String) ≤ "Red" := by
  rw [String.le_iff_toList_le]; decide

theorem step_tC5 : step tC5 ([], []) ("g", [rowWA, rowWB]) =
    ([("A", 25788/17), ("B", 25212/17)],
     [{ team := "A", elo := 15169/10, date := 1, gameid := "g" },
      { team := "B", elo := 14831/10, date := 1, gameid := "g" }]) := by
  unfold step
  rw [if_pos (by simp)]
  simp only [rowWA, rowWB, sblue_red, if_pos sblue_red]
  simp [getA, updA, tgold, glen, tC5, ewp_1500, margin_5000_5000_1700, STARTING_ELO, BASE_K]
  norm_num
  exact ⟨pyRound1_A, pyRound1_B⟩

theorem compute_elo_tC5 : compute_elo tC5 =
    ([("A", 25788/17), ("B", 25212/17)],
     [{ team := "A", elo := 15169/10, date := 1, gameid := "g" },
      { team := "B", elo := 14831/10, date := 1, gameid := "g" }]) := by
  unfold compute_elo
  dsimp only
  rw [show sortByDate tC5.rows = [rowWA, rowWB] from by
    simp [sortByDate, tC5, rowWA, rowWB]]
  rw [show sortedGameIds [rowWA, rowWB] = ["g"] from by
    simp [sortedGameIds, uniqueFirst, uniqueAux, rowWA, rowWB]]
  simp only [List.map_cons, List.map_nil, List.foldl_cons, List.foldl_nil]
  rw [show [rowWA, rowWB].filter (fun r => r.gameid = "g") = [rowWA, rowWB] from by
    simp [rowWA, rowWB]]
  exact step_tC5

/-- C5 counterexample: in the game of `tC5` team "A"'s post-update rating is
`25788/17 = 1516.941...`, but the history entry records `1516.9`; the
recorded value is NOT the post-update rating. -/
theorem elo_history_rounding_cx :
    ((compute_elo tC5).2.map (fun e => (e.team, e.elo))).head? = some ("A", 15169/10)
    ∧ (getA (compute_elo tC5).1 "A").getD STARTING_ELO = 25788/17
    ∧ ((15169:ℝ)/10) ≠ 25788/17 := by
  rw [compute_elo_tC5]
  refine ⟨rfl, by simp [getA], by norm_num⟩

/-! ### C2 — order of game processing

`compute_elo` sorts the rows by date, but `groupby("gameid")` then iterates
the groups in ascending *gameid* order (pandas sorts group keys), so the
games are applied in gameid order, not date order.  `tC2` has game "g2" on
date 1 and game "g1" on date 2; the run below shows the later-dated game
"g1" is applied first (history is appended in processing order). -/

/-- Game "g2", date 1, Blue row (team "A" beats team "B"). -/
def rowG2A : Row :=
  { gameid := "g2", date := 1, league := "L", teamname := "A", side := "Blue",
    result := 1, totalgold := none, gamelength := none, stats := fun _ => none }

/-- Game "g2", date 1, Red row. -/
def rowG2B : Row :=
  { gameid := "g2", date := 1, league := "L", teamname := "B", side := "Red",
    result := 0, totalgold := none, gamelength := none, stats := fun _ => none }

/-- Game "g1", date 2, Blue row (team "C" beats team "D"). -/
def rowG1C : Row :=
  { gameid := "g1", date := 2, league := "L", teamname := "C", side := "Blue",
    result := 1, totalgold := none, gamelength := none, stats := fun _ => none }

/-- Game "g1", date 2, Red row. -/
def rowG1D : Row :=
  { gameid := "g1", date := 2, league := "L", teamname := "D", side := "Red",
    result := 0, totalgold := none, gamelength := none, stats := fun _ => none }

/-- Two well-formed games whose gameid order ("g1" < "g2") is the reverse of
their date order (g2 on date 1, g1 on date 2). -/
def tC2 : Table := { cols := [], rows := [rowG2A, rowG2B, rowG1C, rowG1D] }

theorem not_g2_le_g1 : ¬ ("g2" : String) ≤ "g1" := by
  rw [String.le_iff_toList_le]; decide

/-- C2 failing run: on `tC2` the history records game "g1" (date 2) before
game "g2" (date 1) — `compute_elo` applies the later-dated game first, so
well-formed games are NOT processed in ascending date order. -/
theorem compute_elo_gameid_order_cx :
    (compute_elo tC2).2.map (fun e => (e.gameid, e.date)) =
      [("g1", 2), ("g1", 2), ("g2", 1), ("g2", 1)] := by
  unfold compute_elo
  dsimp only
  rw [show sortByDate tC2.rows = [rowG2A, rowG2B, rowG1C, rowG1D] from by
    simp [sortByDate, tC2, rowG2A, rowG2B, rowG1C, rowG1D]]
  rw [show sortedGameIds [rowG2A, rowG2B, rowG1C, rowG1D] = ["g1", "g2"] from by
    simp [sortedGameIds, uniqueFirst, uniqueAux, rowG2A, rowG2B, rowG1C, rowG1D,
      not_g2_le_g1]
    decide]
  simp only [List.map_cons, List.map_nil, List.foldl_cons, List.foldl_nil]
  rw [show List.filter (fun r => decide (r.gameid = "g1")) [rowG2A, rowG2B, rowG1C, rowG1D]
      = [rowG1C, rowG1D] from by simp [rowG2A, rowG2B, rowG1C, rowG1D]]
  rw [show List.filter (fun r => decide (r.gameid = "g2")) [rowG2A, rowG2B, rowG1C, rowG1D]
      = [rowG2A, rowG2B] from by simp [rowG2A, rowG2B, rowG1C, rowG1D]]
  unfold step
  rw [if_pos (by simp), if_pos (by simp)]
  simp only [rowG2A, rowG2B, rowG1C, rowG1D, sblue_red, if_pos sblue_red]
  simp [getA, updA]

/-! ### src/projection.py -/

/-- Early Game factor columns and weights (projection.py FACTOR_COLS). -/
def egCols : List (String × ℝ) :=
  [("golddiffat10", 1.0), ("golddiffat15", 1.0), ("xpdiffat10", 0.8),
   ("csdiffat10", 0.6), ("firstblood", 0.5)]

/-- Objective Control factor columns and weights. -/
def ocCols : List (String × ℝ) :=
  [("firstdragon", 0.8), ("firstbaron", 0.8), ("firsttower", 0.7),
   ("dragons", 1.0), ("barons", 1.0), ("heralds", 0.6), ("void_grubs", 0.5),
   ("towers", 0.8)]

/-- Team Fighting factor columns and weights (deaths weighted -1.0). -/
def tfCols : List (String × ℝ) :=
  [("team kpm", 1.0), ("kills", 0.8), ("deaths", -1.0), ("assists", 0.5),
   ("dpm", 0.7)]

/-- Vision & Macro factor columns and weights. -/
def vmCols : List (String × ℝ) :=
  [("vspm", 1.0), ("wpm", 0.8), ("wcpm", 0.7), ("earned gpm", 1.0),
   ("gspd", 0.8)]

/-- `FACTOR_COLS` (projection.py line 24), in dict insertion order. -/
def FACTOR_COLS : List (String × List (String × ℝ)) :=
  [("early_game", egCols), ("objective_control", ocCols),
   ("team_fighting", tfCols), ("vision_macro", vmCols)]

/-- `FACTOR_WEIGHTS` (projection.py line 59). -/
def FACTOR_WEIGHTS : List (String × ℝ) :=
  [("elo", 0.30), ("early_game", 0.20), ("objective_control", 0.20),
   ("team_fighting", 0.15), ("vision_macro", 0.15)]

/-- Mean of a list of reals (the mean of the non-NaN cells pandas averages). -/
noncomputable def listMean (vs : List ℝ) : ℝ := vs.sum / vs.length

/-- The mean of one stat column over a set of rows: pandas `.mean()` skips
NaN cells and yields NaN (`none`) when no value remains. -/
noncomputable def colMean (rows : List Row) (col : String) : Option ℝ :=
  match rows.filterMap (fun r => r.stats col) with
  | [] => none
  | v :: vs => some (listMean (v :: vs))

/-- The rows of one team (`games_df[games_df["teamname"] == team]`). -/
def teamRows (t : Table) (team : String) : List Row :=
  t.rows.filter (fun r => r.teamname = team)

/-- The per-team means of a column, over the teams that have a value — the
non-NaN entries of `games_df.groupby("teamname").mean()[col]`.  The groupby
orders teams by name, but the population mean and std do not depend on the
order, so first-occurrence order is used here. -/
noncomputable def teamMeans (t : Table) (col : String) : List ℝ :=
  (uniqueFirst (t.rows.map (fun r => r.teamname))).filterMap
    (fun tm => colMean (teamRows t tm) col)

/-- `league_stats[col]["mean"]` (projection.py line 90): cross-team mean of
the per-team means, skipping NaN.  When no team has a value Python's mean is
NaN; that case is unreachable in `compute_team_profile` because the value is
only consulted after the querying team's own (non-NaN) mean contributed, and
this model then returns `0`. -/
noncomputable def popMean (t : Table) (col : String) : ℝ :=
  listMean (teamMeans t col)

/-- `league_stats[col]["std"]` after the degeneracy substitution
(projection.py lines 91-93): pandas sample std (ddof = 1) of the per-team
means, which is NaN for fewer than two values; a NaN or zero std is replaced
by 1.0. -/
noncomputable def popStd (t : Table) (col : String) : ℝ :=
  let vs := teamMeans t col
  if vs.length ≤ 1 then 1
  else
    let s := Real.sqrt ((vs.map (fun x => (x - listMean vs)^2)).sum / ((vs.length : ℝ) - 1))
    if s = 0 then 1 else s

/-- The `last_n` window (projection.py lines 107-108): Python `if last_n:`
is false for `None` and for `0`; `.tail(n)` keeps the last `n` rows. -/
def applyWindow (last_n : Option ℕ) (rows : List Row) : List Row :=
  match last_n with
  | none => rows
  | some n => if n = 0 then rows else rows.drop (rows.length - n)

/-- One iteration of the inner column loop of `compute_team_profile`
(projection.py lines 119-127) on the accumulator
`(weighted_z, total_weight)`: a column missing from the frame or NaN for
this team is skipped from both sums. -/
noncomputable def profStep (t : Table) (team_df : List Row) (acc : ℝ × ℝ)
    (cw : String × ℝ) : ℝ × ℝ :=
  if cw.1 ∈ t.cols then
    match colMean team_df cw.1 with
    | none => acc
    | some val => (acc.1 + (val - popMean t cw.1) / popStd t cw.1 * cw.2,
                   acc.2 + |cw.2|)
  else acc

/-- `compute_team_profile` (projection.py line 98): the factor-name-to-score
dict, in `FACTOR_COLS` order.  Note the division by `max(total_weight, 1)`
and the `round(_, 3)` of line 128. -/
noncomputable def compute_team_profile (team : String) (t : Table)
    (last_n : Option ℕ) : List (String × ℝ) :=
  let team_df := applyWindow last_n (t.rows.filter (fun r => r.teamname = team))
  if team_df.isEmpty then FACTOR_COLS.map (fun fc => (fc.1, 0.0))
  else
    FACTOR_COLS.map (fun fc =>
      let acc := fc.2.foldl (profStep t team_df) (0.0, 0.0)
      (fc.1, pyRound3 (acc.1 / max acc.2 1)))

/-- `get_playstyle_label` (projection.py line 133): the ordered
`PLAYSTYLE_THRESHOLDS` predicates, first match wins; the final "Balanced"
predicate is always true (so the closing `return "Balanced"` of line 138 is
unreachable).  `p.get(f, 0)` is `(getA p f).getD 0`. -/
noncomputable def get_playstyle_label (p : List (String × ℝ)) : String :=
  if (getA p "early_game").getD 0 > 0.7 then "Early Aggressor"
  else if (getA p "early_game").getD 0 > 0.5 ∧ (getA p "vision_macro").getD 0 > 0.5 then
    "Lane Kingdom"
  else if (getA p "objective_control").getD 0 > 0.7 then "Objective Focused"
  else if (getA p "team_fighting").getD 0 > 0.7 then "Team Fight Monsters"
  else if (getA p "vision_macro").getD 0 > 0.7 then "Vision Control"
  else if (getA p "early_game").getD 0 < -0.3 ∧ (getA p "team_fighting").getD 0 > 0.3 then
    "Late-Game Scaling"
  else "Balanced"

/-- `f.replace("_", " ").title()` (projection.py lines 193-196), tabulated on
the four factor names that can occur in a profile. -/
def factorTitle (f : String) : String :=
  if f = "early_game" then "Early Game"
  else if f = "objective_control" then "Objective Control"
  else if f = "team_fighting" then "Team Fighting"
  else if f = "vision_macro" then "Vision Macro"
  else f

/-- `_classify` (projection.py line 192): strengths are factors above 0.3,
weaknesses below -0.3, with non-empty placeholders. -/
noncomputable def _classify (p : List (String × ℝ)) : List String × List String :=
  let strengths := (p.filter (fun fv => decide (fv.2 > 0.3))).map (fun fv => factorTitle fv.1)
  let weaknesses := (p.filter (fun fv => decide (fv.2 < -0.3))).map (fun fv => factorTitle fv.1)
  (if strengths.isEmpty then ["Balanced"] else strengths,
   if weaknesses.isEmpty then ["None"] else weaknesses)

/-- The dict returned by `project_matchup` (projection.py lines 202-219). -/
structure ProjResult where
  win_prob_a : ℝ
  win_prob_b : ℝ
  composite_a : ℝ
  composite_b : ℝ
  elo_a : ℝ
  elo_b : ℝ
  elo_edge : String
  factor_breakdown : List (String × ℝ × ℝ)
  profile_a : List (String × ℝ)
  profile_b : List (String × ℝ)
  playstyle_a : String
  playstyle_b : String
  strengths_a : List String
  weaknesses_a : List String
  strengths_b : List String
  weaknesses_b : List String

/-- `project_matchup` (projection.py line 144).  `weights or FACTOR_WEIGHTS`
treats both `None` and an empty dict as absent; `w["elo"]` is modelled with
default 0 (with the default weights the key is always present). -/
noncomputable def project_matchup (team_a team_b : String) (t : Table)
    (elo_dict : List (String × ℝ)) (last_n : Option ℕ)
    (weights : Option (List (String × ℝ))) : ProjResult :=
  let w := match weights with
    | none => FACTOR_WEIGHTS
    | some [] => FACTOR_WEIGHTS
    | some l => l
  let profile_a := compute_team_profile team_a t last_n
  let profile_b := compute_team_profile team_b t last_n
  let elo_a := (getA elo_dict team_a).getD STARTING_ELO
  let elo_b := (getA elo_dict team_b).getD STARTING_ELO
  let elo_diff := (elo_a - elo_b) / 200
  let composite_a := (getA w "elo").getD 0 * elo_diff
  let composite_b := -(getA w "elo").getD 0 * elo_diff
  let composite_a := FACTOR_COLS.foldl
    (fun c fc => c + (getA w fc.1).getD 0 * (getA profile_a fc.1).getD 0) composite_a
  let composite_b := FACTOR_COLS.foldl
    (fun c fc => c + (getA w fc.1).getD 0 * (getA profile_b fc.1).getD 0) composite_b
  let factor_breakdown := FACTOR_COLS.map (fun fc =>
    (fc.1, (pyRound3 ((getA profile_a fc.1).getD 0),
            pyRound3 ((getA profile_b fc.1).getD 0))))
  let diff := composite_a - composite_b
  let win_prob_a := 1 / (1 + Real.exp (-diff * 3))
  let win_prob_b := 1 - win_prob_a
  let sa := _classify profile_a
  let sb := _classify profile_b
  { win_prob_a := pyRound3 win_prob_a
    win_prob_b := pyRound3 win_prob_b
    composite_a := pyRound3 composite_a
    composite_b := pyRound3 composite_b
    elo_a := pyRound1 elo_a
    elo_b := pyRound1 elo_b
    elo_edge := if elo_a > elo_b then team_a else team_b
    factor_breakdown := factor_breakdown
    profile_a := profile_a
    profile_b := profile_b
    playstyle_a := get_playstyle_label profile_a
    playstyle_b := get_playstyle_label profile_b
    strengths_a := sa.1
    weaknesses_a := sa.2
    strengths_b := sb.1
    weaknesses_b := sb.2 }

/-- One leaderboard row of `global_power_rankings` (projection.py
lines 248-256). -/
structure RankRow where
  team : String
  league : String
  elo : ℝ
  composite : ℝ
  playstyle : String
  record : String
  win_rate : ℝ

/-- The row built for one team by `global_power_rankings`
(projection.py lines 234-256).  `league` is `iloc[0]` of the team's rows
(teams are drawn from the rows, so the list is non-empty; the default ""
is unreachable). -/
noncomputable def mkRankRow (t : Table) (elo_dict : List (String × ℝ))
    (team : String) : RankRow :=
  let profile := compute_team_profile team t none
  let composite := (profile.map (fun fv => (getA FACTOR_WEIGHTS fv.1).getD 0 * fv.2)).sum
  let elo := (getA elo_dict team).getD STARTING_ELO
  let composite := composite + ((getA FACTOR_WEIGHTS "elo").getD 0) * ((elo - STARTING_ELO) / 200)
  let team_games := teamRows t team
  let league := ((team_games.head?).map (fun r => r.league)).getD ""
  let wins : ℤ := (team_games.map (fun r => r.result)).sum
  let games_played := team_games.length
  { team := team
    league := league
    elo := pyRound1 elo
    composite := pyRound3 composite
    playstyle := get_playstyle_label profile
    record := toString wins ++ "-" ++ toString ((games_played : ℤ) - wins)
    win_rate := pyRound3 ((wins : ℝ) / (max games_played 1 : ℕ)) }

/-- The descending-composite order used by
`df.sort_values("composite", ascending=False)`. -/
def rankRel (a b : RankRow) : Prop := b.composite ≤ a.composite

noncomputable instance : DecidableRel rankRel := fun a b => Real.decidableLE _ _

instance : IsTotal RankRow rankRel := ⟨fun a b => le_total b.composite a.composite⟩

instance : IsTrans RankRow rankRel := ⟨fun _ _ _ h1 h2 => le_trans h2 h1⟩

/-- `global_power_rankings` (projection.py line 225): one row per distinct
team (pandas `unique()` order of first appearance), sorted by composite
descending (modelled as a sorted permutation — the pandas tie order is not
specified), 1-based rank from the reset index, truncated to `top_n`. -/
noncomputable def global_power_rankings (t : Table) (elo_dict : List (String × ℝ))
    (top_n : ℕ) : List (ℕ × RankRow) :=
  let teams := uniqueFirst (t.rows.map (fun r => r.teamname))
  let rows := teams.map (mkRankRow t elo_dict)
  let sorted := List.insertionSort rankRel rows
  ((List.range' 1 sorted.length).zip sorted).take top_n

/-! ### C8 — a team with no rows has an all-zero profile, labelled Balanced -/

/-- C8: for a team with zero rows in the match table the profile lists every
factor with score 0.0 and `get_playstyle_label` of that profile is
"Balanced". -/
theorem profile_empty_zero (team : String) (t : Table) (last_n : Option ℕ)
    (h : t.rows.filter (fun r => r.teamname = team) = []) :
    (compute_team_profile team t last_n).map Prod.fst = FACTOR_COLS.map Prod.fst
    ∧ (∀ fv ∈ compute_team_profile team t last_n, fv.2 = 0)
    ∧ get_playstyle_label (compute_team_profile team t last_n) = "Balanced" := by
  have hdf : applyWindow last_n (t.rows.filter (fun r => r.teamname = team)) = [] := by
    rw [h]
    cases last_n with
    | none => rfl
    | some n => simp [applyWindow]
  have hprof : compute_team_profile team t last_n
      = FACTOR_COLS.map (fun fc => (fc.1, 0.0)) := by
    unfold compute_team_profile
    rw [hdf]
    simp
  rw [hprof]
  refine ⟨by simp, ?_, ?_⟩
  · intro fv hfv
    simp only [List.mem_map] at hfv
    obtain ⟨fc, hm, heq⟩ := hfv
    rw [← heq]
    norm_num
  · norm_num [get_playstyle_label, FACTOR_COLS, getA]

/-- Witness for C8: the team "X" has no rows in the empty table. -/
theorem profile_empty_zero_witness :
    (tEmpty.rows.filter (fun r => r.teamname = "X") = [])
    ∧ ((compute_team_profile "X" tEmpty none).map Prod.fst = FACTOR_COLS.map Prod.fst
      ∧ (∀ fv ∈ compute_team_profile "X" tEmpty none, fv.2 = 0)
      ∧ get_playstyle_label (compute_team_profile "X" tEmpty none) = "Balanced") :=
  ⟨rfl, profile_empty_zero "X" tEmpty none rfl⟩

/-! ### C10 — elo_edge goes to team_b on ties -/

/-- C10: `project_matchup` gives `elo_edge = team_b` whenever
`elo_a ≤ elo_b` (in particular on exact ties, including the default-1500 tie
when both teams are absent from the rating dict), and `team_a` only when
`elo_a` is strictly greater. -/
theorem project_matchup_edge_tie (team_a team_b : String) (t : Table)
    (elo_dict : List (String × ℝ)) (last_n : Option ℕ)
    (weights : Option (List (String × ℝ))) :
    ((getA elo_dict team_a).getD STARTING_ELO ≤ (getA elo_dict team_b).getD STARTING_ELO →
      (project_matchup team_a team_b t elo_dict last_n weights).elo_edge = team_b)
    ∧ ((getA elo_dict team_b).getD STARTING_ELO < (getA elo_dict team_a).getD STARTING_ELO →
      (project_matchup team_a team_b t elo_dict last_n weights).elo_edge = team_a) := by
  unfold project_matchup
  dsimp only
  constructor
  · intro hle
    rw [if_neg (not_lt.mpr hle)]
  · intro hlt
    rw [if_pos hlt]

/-- Witness for C10: both teams absent from the rating dict default to 1500
(an exact tie) and the edge names team "B". -/
theorem project_matchup_edge_tie_witness :
    ((getA ([] : List (String × ℝ)) "A").getD STARTING_ELO
      ≤ (getA ([] : List (String × ℝ)) "B").getD STARTING_ELO)
    ∧ (project_matchup "A" "B" tEmpty [] none none).elo_edge = "B" :=
  ⟨le_refl _, (project_matchup_edge_tie "A" "B" tEmpty [] none none).1 (le_refl _)⟩

/-! ### C3 — the factor score formula -/

/-- The columns of a factor that `compute_team_profile` actually applies for
a given team frame: present in the table and with a non-NaN team mean. -/
noncomputable def appliedCols (t : Table) (td : List Row)
    (fcols : List (String × ℝ)) : List (String × ℝ) :=
  fcols.filter (fun cw => decide (cw.1 ∈ t.cols) && (colMean td cw.1).isSome)

/-- The z-score of one applied column for a team frame. -/
noncomputable def zScore (t : Table) (td : List Row) (cw : String × ℝ) : ℝ :=
  ((colMean td cw.1).getD 0 - popMean t cw.1) / popStd t cw.1

/-- The column fold of `compute_team_profile` accumulates exactly the
weighted z-score sum and the absolute-weight sum of the applied columns. -/
theorem profStep_foldl (t : Table) (td : List Row) (fcols : List (String × ℝ)) :
    ∀ acc : ℝ × ℝ, fcols.foldl (profStep t td) acc =
      (acc.1 + ((appliedCols t td fcols).map (fun cw => zScore t td cw * cw.2)).sum,
       acc.2 + ((appliedCols t td fcols).map (fun cw => |cw.2|)).sum) := by
  induction fcols with
  | nil => intro acc; simp [appliedCols]
  | cons cw rest ih =>
    intro acc
    rw [List.foldl_cons, ih]
    by_cases hc : cw.1 ∈ t.cols
    · cases hcm : colMean td cw.1 with
      | none =>
        simp [profStep, appliedCols, hc, hcm]
      | some v =>
        simp [profStep, appliedCols, hc, hcm, zScore]
        constructor <;> ring
    · simp [profStep, appliedCols, hc]

/-- Shared evaluation: the factor entry of `compute_team_profile` for a
non-empty team frame is the clamped, rounded weighted average of the applied
columns. -/
theorem profile_factor_fold_eq (team : String) (t : Table) (last_n : Option ℕ)
    (f : String) (fcols : List (String × ℝ)) (td : List Row)
    (hmem : (f, fcols) ∈ FACTOR_COLS)
    (htd : td = applyWindow last_n (t.rows.filter (fun r => r.teamname = team)))
    (hne : td ≠ []) :
    getA (compute_team_profile team t last_n) f =
      some (pyRound3
        (((appliedCols t td fcols).map (fun cw => zScore t td cw * cw.2)).sum
          / max (((appliedCols t td fcols).map (fun cw => |cw.2|)).sum) 1)) := by
  have hemp : (applyWindow last_n (t.rows.filter (fun r => r.teamname = team))).isEmpty
      = false := by
    rw [← htd]
    cases hA : td with
    | nil => exact absurd hA hne
    | cons a l => rfl
  unfold compute_team_profile
  dsimp only
  rw [hemp]
  rw [if_neg (by simp)]
  simp only [FACTOR_COLS, Prod.mk.injEq, List.mem_cons, List.not_mem_nil, or_false] at hmem
  rcases hmem with ⟨rfl, rfl⟩ | ⟨rfl, rfl⟩ | ⟨rfl, rfl⟩ | ⟨rfl, rfl⟩ <;>
    (simp only [FACTOR_COLS, List.map_cons, List.map_nil]
     simp [getA]
     rw [profStep_foldl]
     norm_num
     rw [htd])

/-- C3 (amended): each factor score equals the weighted z-score sum of the
applied columns divided by `max(total_weight, 1)` — the sum of the absolute
applied weights clamped below at 1 — and then rounded half-to-even to three
decimals (Python `round(_, 3)`); columns missing from the table or NaN for
the team are still excluded from both sums. -/
theorem team_profile_factor_formula (team : String) (t : Table) (last_n : Option ℕ)
    (f : String) (fcols : List (String × ℝ)) (td : List Row)
    (hmem : (f, fcols) ∈ FACTOR_COLS)
    (htd : td = applyWindow last_n (t.rows.filter (fun r => r.teamname = team)))
    (hne : td ≠ []) :
    getA (compute_team_profile team t last_n) f =
      some (pyRound3
        (((appliedCols t td fcols).map (fun cw => zScore t td cw * cw.2)).sum
          / max (((appliedCols t td fcols).map (fun cw => |cw.2|)).sum) 1)) :=
  profile_factor_fold_eq team t last_n f fcols td hmem htd hne

/-- The factor score exactly as the claim words it: the weighted z-score sum
divided by the sum of the absolute weights of the applied columns (no
clamping of the denominator, no rounding).  Stated separately so the code's
behaviour can be compared against the claim. -/
noncomputable def spec_factor_score (t : Table) (td : List Row)
    (fcols : List (String × ℝ)) : ℝ :=
  ((appliedCols t td fcols).map (fun cw => zScore t td cw * cw.2)).sum
    / ((appliedCols t td fcols).map (fun cw => |cw.2|)).sum

/-- Team "X" of `tC3`: one game, `firstblood = 0`. -/
def rowX3 : Row :=
  { gameid := "m1", date := 1, league := "L", teamname := "X", side := "Blue",
    result := 1, totalgold := none, gamelength := none,
    stats := fun c => if c = "firstblood" then some 0 else none }

/-- Team "Y" of `tC3`: one game, `firstblood = 1`. -/
def rowY3 : Row :=
  { gameid := "m1", date := 1, league := "L", teamname := "Y", side := "Red",
    result := 0, totalgold := none, gamelength := none,
    stats := fun c => if c = "firstblood" then some 1 else none }

/-- Team "Z" of `tC3`: one game, `firstblood = 2`. -/
def rowZ3 : Row :=
  { gameid := "m2", date := 2, league := "L", teamname := "Z", side := "Blue",
    result := 1, totalgold := none, gamelength := none,
    stats := fun c => if c = "firstblood" then some 2 else none }

/-- Three teams, a single stat column `firstblood` with per-team means
0, 1, 2 (population mean 1, sample std exactly 1). -/
def tC3 : Table := { cols := ["firstblood"], rows := [rowX3, rowY3, rowZ3] }

theorem filter_tC3_Z : tC3.rows.filter (fun r => r.teamname = "Z") = [rowZ3] := by
  simp [tC3, rowX3, rowY3, rowZ3]

theorem colMean_Z3 : colMean [rowZ3] "firstblood" = some 2 := by
  simp [colMean, rowZ3, listMean]

theorem teamMeans_tC3 : teamMeans tC3 "firstblood" = [0, 1, 2] := by
  simp [teamMeans, tC3, uniqueFirst, uniqueAux, teamRows, rowX3, rowY3, rowZ3,
    colMean, listMean]

theorem popMean_tC3 : popMean tC3 "firstblood" = 1 := by
  rw [popMean, teamMeans_tC3]
  norm_num [listMean]

theorem popStd_tC3 : popStd tC3 "firstblood" = 1 := by
  unfold popStd
  rw [teamMeans_tC3]
  dsimp only
  rw [if_neg (by norm_num)]
  rw [show listMean [(0:ℝ), 1, 2] = 1 from by norm_num [listMean]]
  rw [show (List.map (fun x => (x - 1)^2) [(0:ℝ), 1, 2]).sum
      / ((([(0:ℝ), 1, 2].length : ℕ) : ℝ) - 1) = 1 from by norm_num]
  rw [Real.sqrt_one]
  norm_num

theorem applied_tC3 : appliedCols tC3 [rowZ3] egCols = [("firstblood", 0.5)] := by
  simp [appliedCols, egCols, tC3, colMean, rowZ3]

theorem pyRound3_half : pyRound3 ((1:ℝ)/2) = 1/2 := by
  unfold pyRound3 roundHalfEven
  rw [show ((1:ℝ)/2) * 1000 = ((500:ℤ):ℝ) by norm_num]
  rw [Int.fract_intCast]
  rw [if_neg (by norm_num)]
  rw [round_intCast]
  norm_num

theorem pyRound3_third : pyRound3 ((1:ℝ)/3) = 333/1000 := by
  unfold pyRound3 roundHalfEven
  have hfl : ⌊(1000:ℝ)/3⌋ = 333 := by
    rw [Int.floor_eq_iff]
    constructor <;> norm_num
  rw [show ((1:ℝ)/3) * 1000 = 1000/3 by ring]
  rw [if_neg (by rw [Int.fract, hfl]; norm_num)]
  rw [round_eq, show (1000:ℝ)/3 + 1/2 = 2003/6 by ring]
  rw [show ⌊(2003:ℝ)/6⌋ = 333 from by rw [Int.floor_eq_iff]; constructor <;> norm_num]
  norm_num

theorem profileZ_tC3 :
    getA (compute_team_profile "Z" tC3 none) "early_game" = some (1/2) := by
  rw [profile_factor_fold_eq "Z" tC3 none "early_game" egCols [rowZ3]
    (by simp [FACTOR_COLS]) (by simp [applyWindow, filter_tC3_Z]) (by simp)]
  rw [applied_tC3]
  simp only [List.map_cons, List.map_nil, List.sum_cons, List.sum_nil]
  rw [show zScore tC3 [rowZ3] ("firstblood", 0.5) = 1 from by
    simp [zScore, colMean_Z3, popMean_tC3, popStd_tC3]
    norm_num]
  rw [show |(0.5:ℝ)| = 0.5 from abs_of_nonneg (by norm_num)]
  rw [show max ((0.5:ℝ) + 0) 1 = 1 from max_eq_right (by norm_num)]
  rw [show ((1:ℝ) * 0.5 + 0) / 1 = 1/2 by norm_num]
  rw [pyRound3_half]

theorem specZ_tC3 : spec_factor_score tC3 [rowZ3] egCols = 1 := by
  unfold spec_factor_score
  rw [applied_tC3]
  simp only [List.map_cons, List.map_nil, List.sum_cons, List.sum_nil]
  rw [show zScore tC3 [rowZ3] ("firstblood", 0.5) = 1 from by
    simp [zScore, colMean_Z3, popMean_tC3, popStd_tC3]
    norm_num]
  rw [show |(0.5:ℝ)| = 0.5 from abs_of_nonneg (by norm_num)]
  norm_num

/-- Team "X" of `tC3b`: `golddiffat10 = 0`, `firstblood = 2`. -/
def rowX3b : Row :=
  { gameid := "m1", date := 1, league := "L", teamname := "X", side := "Blue",
    result := 1, totalgold := none, gamelength := none,
    stats := fun c => if c = "golddiffat10" then some 0
                      else if c = "firstblood" then some 2 else none }

/-- Team "Y" of `tC3b`: `golddiffat10 = 1`, `firstblood = 1`. -/
def rowY3b : Row :=
  { gameid := "m1", date := 1, league := "L", teamname := "Y", side := "Red",
    result := 0, totalgold := none, gamelength := none,
    stats := fun c => if c = "golddiffat10" then some 1
                      else if c = "firstblood" then some 1 else none }

/-- Team "Z" of `tC3b`: `golddiffat10 = 2`, `firstblood = 0`. -/
def rowZ3b : Row :=
  { gameid := "m2", date := 2, league := "L", teamname := "Z", side := "Blue",
    result := 1, totalgold := none, gamelength := none,
    stats := fun c => if c = "golddiffat10" then some 2
                      else if c = "firstblood" then some 0 else none }

/-- Three teams, two stat columns, both with population mean 1 and sample
std exactly 1; team "Z" has z-scores +1 (golddiffat10) and -1 (firstblood). -/
def tC3b : Table :=
  { cols := ["golddiffat10", "firstblood"], rows := [rowX3b, rowY3b, rowZ3b] }

theorem filter_tC3b_Z : tC3b.rows.filter (fun r => r.teamname = "Z") = [rowZ3b] := by
  simp [tC3b, rowX3b, rowY3b, rowZ3b]

theorem colMean_Z3b_gd : colMean [rowZ3b] "golddiffat10" = some 2 := by
  simp [colMean, rowZ3b, listMean]

theorem colMean_Z3b_fb : colMean [rowZ3b] "firstblood" = some 0 := by
  simp [colMean, rowZ3b, listMean]

theorem teamMeans_tC3b_gd : teamMeans tC3b "golddiffat10" = [0, 1, 2] := by
  simp [teamMeans, tC3b, uniqueFirst, uniqueAux, teamRows, rowX3b, rowY3b, rowZ3b,
    colMean, listMean]

theorem teamMeans_tC3b_fb : teamMeans tC3b "firstblood" = [2, 1, 0] := by
  simp [teamMeans, tC3b, uniqueFirst, uniqueAux, teamRows, rowX3b, rowY3b, rowZ3b,
    colMean, listMean]

theorem popMean_tC3b_gd : popMean tC3b "golddiffat10" = 1 := by
  rw [popMean, teamMeans_tC3b_gd]
  norm_num [listMean]

theorem popMean_tC3b_fb : popMean tC3b "firstblood" = 1 := by
  rw [popMean, teamMeans_tC3b_fb]
  norm_num [listMean]

theorem popStd_tC3b_gd : popStd tC3b "golddiffat10" = 1 := by
  unfold popStd
  rw [teamMeans_tC3b_gd]
  dsimp only
  rw [if_neg (by norm_num)]
  rw [show listMean [(0:ℝ), 1, 2] = 1 from by norm_num [listMean]]
  rw [show (List.map (fun x => (x - 1)^2) [(0:ℝ), 1, 2]).sum
      / ((([(0:ℝ), 1, 2].length : ℕ) : ℝ) - 1) = 1 from by norm_num]
  rw [Real.sqrt_one]
  norm_num

theorem popStd_tC3b_fb : popStd tC3b "firstblood" = 1 := by
  unfold popStd
  rw [teamMeans_tC3b_fb]
  dsimp only
  rw [if_neg (by norm_num)]
  rw [show listMean [(2:ℝ), 1, 0] = 1 from by norm_num [listMean]]
  rw [show (List.map (fun x => (x - 1)^2) [(2:ℝ), 1, 0]).sum
      / ((([(2:ℝ), 1, 0].length : ℕ) : ℝ) - 1) = 1 from by norm_num]
  rw [Real.sqrt_one]
  norm_num

theorem applied_tC3b : appliedCols tC3b [rowZ3b] egCols
    = [("golddiffat10", 1.0), ("firstblood", 0.5)] := by
  simp [appliedCols, egCols, tC3b, colMean, rowZ3b]

theorem profileZ_tC3b :
    getA (compute_team_profile "Z" tC3b none) "early_game" = some (333/1000) := by
  rw [profile_factor_fold_eq "Z" tC3b none "early_game" egCols [rowZ3b]
    (by simp [FACTOR_COLS]) (by simp [applyWindow, filter_tC3b_Z]) (by simp)]
  rw [applied_tC3b]
  simp only [List.map_cons, List.map_nil, List.sum_cons, List.sum_nil]
  rw [show zScore tC3b [rowZ3b] ("golddiffat10", 1.0) = 1 from by
    simp [zScore, colMean_Z3b_gd, popMean_tC3b_gd, popStd_tC3b_gd]
    norm_num]
  rw [show zScore tC3b [rowZ3b] ("firstblood", 0.5) = -1 from by
    simp [zScore, colMean_Z3b_fb, popMean_tC3b_fb, popStd_tC3b_fb]]
  rw [show |(1.0:ℝ)| = 1 from by rw [abs_of_nonneg] <;> norm_num]
  rw [show |(0.5:ℝ)| = 0.5 from abs_of_nonneg (by norm_num)]
  rw [show max ((1:ℝ) + (0.5 + 0)) 1 = 3/2 from by
    rw [max_eq_left (by norm_num)]; norm_num]
  rw [show ((1:ℝ) * 1.0 + (-1 * 0.5 + 0)) / (3/2) = 1/3 by norm_num]
  rw [pyRound3_third]

theorem specZ_tC3b : spec_factor_score tC3b [rowZ3b] egCols = 1/3 := by
  unfold spec_factor_score
  rw [applied_tC3b]
  simp only [List.map_cons, List.map_nil, List.sum_cons, List.sum_nil]
  rw [show zScore tC3b [rowZ3b] ("golddiffat10", 1.0) = 1 from by
    simp [zScore, colMean_Z3b_gd, popMean_tC3b_gd, popStd_tC3b_gd]
    norm_num]
  rw [show zScore tC3b [rowZ3b] ("firstblood", 0.5) = -1 from by
    simp [zScore, colMean_Z3b_fb, popMean_tC3b_fb, popStd_tC3b_fb]]
  rw [show |(1.0:ℝ)| = 1 from by rw [abs_of_nonneg] <;> norm_num]
  rw [show |(0.5:ℝ)| = 0.5 from abs_of_nonneg (by norm_num)]
  norm_num

/-- C3 counterexample.  On `tC3` only `firstblood` (weight 0.5) applies:
the claim's weighted average is `z = 1`, but the code divides by
`max(0.5, 1) = 1` and returns `0.5`.  On `tC3b` two columns apply (weights
1.0 and 0.5, z-scores +1 and -1): the claim's value is `1/3`, but the code
rounds to three decimals and returns `0.333`. -/
theorem team_profile_formula_cx :
    (getA (compute_team_profile "Z" tC3 none) "early_game" = some (1/2)
      ∧ spec_factor_score tC3 [rowZ3] egCols = 1
      ∧ [rowZ3] = applyWindow none (tC3.rows.filter (fun r => r.teamname = "Z"))
      ∧ ((1:ℝ)/2) ≠ 1)
    ∧ (getA (compute_team_profile "Z" tC3b none) "early_game" = some (333/1000)
      ∧ spec_factor_score tC3b [rowZ3b] egCols = 1/3
      ∧ [rowZ3b] = applyWindow none (tC3b.rows.filter (fun r => r.teamname = "Z"))
      ∧ ((333:ℝ)/1000) ≠ 1/3) := by
  refine ⟨⟨profileZ_tC3, specZ_tC3, ?_, by norm_num⟩,
          ⟨profileZ_tC3b, specZ_tC3b, ?_, by norm_num⟩⟩
  · simp [applyWindow, filter_tC3_Z]
  · simp [applyWindow, filter_tC3b_Z]

/-- Witness for the amended C3 theorem on `tC3`, team "Z", factor
`early_game`. -/
theorem team_profile_factor_formula_witness :
    (("early_game", egCols) ∈ FACTOR_COLS)
    ∧ ([rowZ3] = applyWindow none (tC3.rows.filter (fun r => r.teamname = "Z")))
    ∧ ([rowZ3] ≠ ([] : List Row))
    ∧ getA (compute_team_profile "Z" tC3 none) "early_game" =
        some (pyRound3
          (((appliedCols tC3 [rowZ3] egCols).map (fun cw => zScore tC3 [rowZ3] cw * cw.2)).sum
            / max (((appliedCols tC3 [rowZ3] egCols).map (fun cw => |cw.2|)).sum) 1)) :=
  ⟨by simp [FACTOR_COLS], by simp [applyWindow, filter_tC3_Z], by simp,
   team_profile_factor_formula "Z" tC3 none "early_game" egCols [rowZ3]
     (by simp [FACTOR_COLS]) (by simp [applyWindow, filter_tC3_Z]) (by simp)⟩

/-! ### C9 — the global ranking lists every team once, sorted, dense ranks -/

theorem mem_uniqueAux (x : String) :
    ∀ (l : List String) (seen : List String),
      x ∈ uniqueAux seen l ↔ x ∈ l ∧ x ∉ seen := by
  intro l
  induction l with
  | nil => intro seen; simp [uniqueAux]
  | cons y ys ih =>
    intro seen
    by_cases hy : y ∈ seen
    · rw [uniqueAux, if_pos hy, ih]
      constructor
      · rintro ⟨hx, hns⟩
        exact ⟨List.mem_cons_of_mem _ hx, hns⟩
      · rintro ⟨hx, hns⟩
        rcases List.mem_cons.mp hx with rfl | hx
        · exact absurd hy hns
        · exact ⟨hx, hns⟩
    · rw [uniqueAux, if_neg hy]
      constructor
      · intro hx
        rcases List.mem_cons.mp hx with rfl | hx
        · exact ⟨List.mem_cons_self _ _, hy⟩
        · obtain ⟨h1, h2⟩ := (ih _).mp hx
          refine ⟨List.mem_cons_of_mem _ h1, fun hc => h2 (List.mem_cons_of_mem _ hc)⟩
      · rintro ⟨hx, hns⟩
        rcases List.mem_cons.mp hx with rfl | hx
        · exact List.mem_cons_self _ _
        · by_cases hxy : x = y
          · subst hxy; exact List.mem_cons_self _ _
          · exact List.mem_cons_of_mem _
              ((ih _).mpr ⟨hx, by simp [hxy, hns]⟩)

theorem uniqueAux_nodup : ∀ (l : List String) (seen : List String),
    (uniqueAux seen l).Nodup := by
  intro l
  induction l with
  | nil => intro seen; simp [uniqueAux]
  | cons y ys ih =>
    intro seen
    by_cases hy : y ∈ seen
    · rw [uniqueAux, if_pos hy]; exact ih _
    · rw [uniqueAux, if_neg hy]
      refine List.nodup_cons.mpr ⟨?_, ih _⟩
      intro hc
      exact ((mem_uniqueAux y ys (y :: seen)).mp hc).2 (List.mem_cons_self _ _)

theorem uniqueFirst_nodup (l : List String) : (uniqueFirst l).Nodup :=
  uniqueAux_nodup l []

theorem mkRankRow_team (t : Table) (elo_dict : List (String × ℝ)) (tm : String) :
    (mkRankRow t elo_dict tm).team = tm := rfl

/-- C9: when `top_n` is at least the number of distinct teams,
`global_power_rankings` lists every distinct team exactly once, with
non-increasing composite scores, and ranks `1, 2, ..., n`. -/
theorem global_power_rankings_complete (t : Table) (elo_dict : List (String × ℝ))
    (top_n : ℕ)
    (h : (uniqueFirst (t.rows.map (fun r => r.teamname))).length ≤ top_n) :
    List.Perm ((global_power_rankings t elo_dict top_n).map (fun p => p.2.team))
      (uniqueFirst (t.rows.map (fun r => r.teamname)))
    ∧ ((global_power_rankings t elo_dict top_n).map (fun p => p.2.team)).Nodup
    ∧ List.Sorted (fun a b : ℝ => b ≤ a)
        ((global_power_rankings t elo_dict top_n).map (fun p => p.2.composite))
    ∧ (global_power_rankings t elo_dict top_n).map (fun p => p.1)
        = List.range' 1 (uniqueFirst (t.rows.map (fun r => r.teamname))).length := by
  have hteams : (uniqueFirst (t.rows.map (fun r => r.teamname))).Nodup :=
    uniqueFirst_nodup _
  set teams := uniqueFirst (t.rows.map (fun r => r.teamname)) with hteamsdef
  set rows := teams.map (mkRankRow t elo_dict) with hrowsdef
  set sorted := List.insertionSort rankRel rows with hsorteddef
  have hperm : List.Perm sorted rows := List.perm_insertionSort rankRel rows
  have hlen2 : sorted.length = teams.length := by
    rw [hperm.length_eq, hrowsdef, List.length_map]
  have hglobal : global_power_rankings t elo_dict top_n
      = (List.range' 1 sorted.length).zip sorted := by
    unfold global_power_rankings
    dsimp only
    rw [← hteamsdef, ← hrowsdef, ← hsorteddef]
    refine List.take_of_length_le ?_
    rw [List.length_zip, List.length_range', hlen2, min_self]
    exact h
  have hmap_snd : ((List.range' 1 sorted.length).zip sorted).map Prod.snd = sorted :=
    List.map_snd_zip _ _ (by rw [List.length_range'])
  have hmap_fst : ((List.range' 1 sorted.length).zip sorted).map Prod.fst
      = List.range' 1 sorted.length :=
    List.map_fst_zip _ _ (by rw [List.length_range'])
  have hteam_eq : ((List.range' 1 sorted.length).zip sorted).map (fun p => p.2.team)
      = sorted.map (fun r => r.team) := by
    rw [show (fun p : ℕ × RankRow => p.2.team)
        = (fun r : RankRow => r.team) ∘ Prod.snd from rfl]
    rw [← List.map_map, hmap_snd]
  have hcomp_eq : ((List.range' 1 sorted.length).zip sorted).map (fun p => p.2.composite)
      = sorted.map (fun r => r.composite) := by
    rw [show (fun p : ℕ × RankRow => p.2.composite)
        = (fun r : RankRow => r.composite) ∘ Prod.snd from rfl]
    rw [← List.map_map, hmap_snd]
  have hteams_map : rows.map (fun r => r.team) = teams := by
    rw [hrowsdef, List.map_map]
    rw [show ((fun r : RankRow => r.team) ∘ mkRankRow t elo_dict) = fun tm => tm from
      funext fun tm => rfl]
    simp
  have hpermteams : List.Perm (sorted.map (fun r => r.team)) teams := by
    rw [← hteams_map]
    exact hperm.map _
  refine ⟨?_, ?_, ?_, ?_⟩
  · rw [hglobal, hteam_eq]
    exact hpermteams
  · rw [hglobal, hteam_eq]
    exact hpermteams.symm.nodup hteams
  · rw [hglobal, hcomp_eq]
    have hs : List.Sorted rankRel sorted := List.sorted_insertionSort rankRel rows
    exact List.Pairwise.map _ (fun a b hab => hab) hs
  · rw [hglobal, hmap_fst, hlen2]

/-- A one-team table for the C9 witness. -/
def tC9 : Table := { cols := [], rows := [rowWA] }

/-- Witness for C9: one team, `top_n = 1`. -/
theorem global_power_rankings_complete_witness :
    ((uniqueFirst (tC9.rows.map (fun r => r.teamname))).length ≤ 1)
    ∧ (List.Perm ((global_power_rankings tC9 [] 1).map (fun p => p.2.team))
        (uniqueFirst (tC9.rows.map (fun r => r.teamname)))
      ∧ ((global_power_rankings tC9 [] 1).map (fun p => p.2.team)).Nodup
      ∧ List.Sorted (fun a b : ℝ => b ≤ a)
          ((global_power_rankings tC9 [] 1).map (fun p => p.2.composite))
      ∧ (global_power_rankings tC9 [] 1).map (fun p => p.1)
          = List.range' 1 (uniqueFirst (tC9.rows.map (fun r => r.teamname))).length) :=
  ⟨by simp [tC9, rowWA, uniqueFirst, uniqueAux],
   global_power_rankings_complete tC9 [] 1 (by simp [tC9, rowWA, uniqueFirst, uniqueAux])⟩

end LolProj
